import Mathlib

/-!
Verification of the Husqvarna Automower BLE Home Assistant integration.

This file is a shallow embedding of the integration's in-repo logic:

* `custom_components/husqvarna_automower_ble/lawn_mower.py`
  (`AutomowerLawnMower._get_activity`, the command methods,
  `_handle_coordinator_update`),
* `custom_components/husqvarna_automower_ble/coordinator.py`
  (`HusqvarnaCoordinator._async_update_data`, `_async_find_device`,
  `execute_command_with_refresh`),
* `custom_components/husqvarna_automower_ble/entity.py`
  (`HusqvarnaAutomowerBleEntity.available`),
* `custom_components/husqvarna_automower_ble/config_flow.py`
  (`HusqvarnaAutomowerBleConfigFlow.async_step_user`).

The external BLE library (`husqvarna_automower_ble`) and the Home Assistant
framework are collaborators: their calls are modelled as environment records
whose fields record, for each call the repo code makes, whether that call
succeeds (and with which value) or raises, mirroring the exception classes
the Python code catches.  Timestamps are natural numbers (seconds).
-/

namespace AutomowerBle

/-- Mower state codes from the external protocol library
(`husqvarna_automower_ble.protocol.MowerState`); the repository's mapping code
pattern-matches on the first seven and treats everything else as a fall-through. -/
inductive MowerState where
  | off
  | waitForSafetypin
  | stopped
  | fatalError
  | pendingStart
  | paused
  | inOperation
  | restricted
  | error
  deriving DecidableEq, Fintype

/-- Mower activity codes from the external protocol library
(`husqvarna_automower_ble.protocol.MowerActivity`). -/
inductive MowerActivity where
  | none
  | mowing
  | goingOut
  | charging
  | goingHome
  | parked
  | stoppedInGarden
  deriving DecidableEq, Fintype

/-- Home Assistant's lawn-mower display activity enum
(`homeassistant.components.lawn_mower.LawnMowerActivity`). -/
inductive LawnMowerActivity where
  | error
  | paused
  | mowing
  | docked
  | returning
  deriving DecidableEq, Fintype

/-- The per-poll data record built by `_async_update_data` (the dict `data`).
`state` and `activity` are optional because the library getters may return
`None`, which `_get_activity` checks for explicitly. -/
structure CoordData where
  battery_level : Nat
  is_charging : Bool
  mode : Nat
  state : Option MowerState
  activity : Option MowerActivity
  error : Nat
  next_start_time : Option Nat
  statistics : List (String × Nat)
  deriving DecidableEq

/-- `AutomowerLawnMower._get_activity` (lawn_mower.py lines 93-127): maps the
coordinator's raw (state, activity) pair to a display activity.  The outer
`Option` is `self.coordinator.data` being unset; a `none` result models the
Python `None` return. -/
def getActivity : Option CoordData → Option LawnMowerActivity
  | Option.none => Option.none
  | Option.some d =>
    match d.state, d.activity with
    | Option.some s, Option.some a =>
      if s = MowerState.paused then Option.some LawnMowerActivity.paused
      else if s = MowerState.stopped ∨ s = MowerState.off ∨ s = MowerState.waitForSafetypin then
        Option.some LawnMowerActivity.error
      else if s = MowerState.restricted ∨ s = MowerState.inOperation ∨ s = MowerState.pendingStart then
        if a = MowerActivity.charging ∨ a = MowerActivity.parked ∨ a = MowerActivity.none then
          Option.some LawnMowerActivity.docked
        else if a = MowerActivity.goingOut ∨ a = MowerActivity.mowing then
          Option.some LawnMowerActivity.mowing
        else if a = MowerActivity.goingHome then
          Option.some LawnMowerActivity.returning
        else Option.some LawnMowerActivity.error
      else Option.some LawnMowerActivity.error
    | _, _ => Option.none

/-- Modelled from the spec (section 4.2): the decision table for
`deriveActivity`, first match wins, unmapped combinations give Error, an
absent input gives an absent result.  This is the specification-side
definition that `getActivity` is compared against. -/
def specDeriveActivity : Option MowerState → Option MowerActivity → Option LawnMowerActivity
  | Option.none, _ => Option.none
  | Option.some _, Option.none => Option.none
  | Option.some s, Option.some a =>
    if s = MowerState.paused then Option.some LawnMowerActivity.paused
    else if s = MowerState.stopped ∨ s = MowerState.off ∨ s = MowerState.waitForSafetypin then
      Option.some LawnMowerActivity.error
    else if (s = MowerState.restricted ∨ s = MowerState.inOperation ∨ s = MowerState.pendingStart)
        ∧ (a = MowerActivity.charging ∨ a = MowerActivity.parked ∨ a = MowerActivity.none) then
      Option.some LawnMowerActivity.docked
    else if (s = MowerState.restricted ∨ s = MowerState.inOperation ∨ s = MowerState.pendingStart)
        ∧ (a = MowerActivity.goingOut ∨ a = MowerActivity.mowing) then
      Option.some LawnMowerActivity.mowing
    else if (s = MowerState.restricted ∨ s = MowerState.inOperation ∨ s = MowerState.pendingStart)
        ∧ a = MowerActivity.goingHome then
      Option.some LawnMowerActivity.returning
    else Option.some LawnMowerActivity.error

/-- C1: for every (state, activity) input pair, `_get_activity` returns exactly
the section 4.2 table's result: Paused maps to Paused for any activity;
Stopped, Off, or WaitForSafetyPin map to Error; Restricted, InOperation, or
PendingStart map to Docked when the activity is Charging, Parked, or None, to
Mowing when it is GoingOut or Mowing, and to Returning when it is GoingHome;
every other combination maps to Error; and if either input is absent (or the
coordinator has no data yet) the result is absent rather than Error. -/
theorem C1_activity_mapper :
    (∀ d : CoordData, getActivity (Option.some d) = specDeriveActivity d.state d.activity)
    ∧ getActivity Option.none = Option.none := by
  refine ⟨fun d => ?_, rfl⟩
  obtain ⟨_, _, _, s, a, _, _, _⟩ := d
  rcases s with _ | s
  · rfl
  · rcases a with _ | a
    · rfl
    · cases s <;> cases a <;> rfl

/-- Exception classes relevant to the poll: `TimeoutError` and `BleakError`
are caught by the first `except` clause of `_async_update_data`; anything
else (including Python's `ValueError`, `ConnectionError`, ...) falls to the
catch-all. -/
inductive ReadExc where
  | timeoutError
  | bleakError
  | otherError
  deriving DecidableEq, Fintype

/-- Python exception values as seen by `_async_update_data`: the link/timeout
errors, an arbitrary other exception, and `UpdateFailed` (which carries a
message and, via `raise ... from ex`, an optional cause). -/
inductive PyExc where
  | timeoutError
  | bleakError
  | otherError
  | updateFailed (msg : String) (cause : Option PyExc)

/-- Conversion of a raised read-exception into the exception value seen by the
surrounding `try`. -/
def ReadExc.toExc : ReadExc → PyExc
  | ReadExc.timeoutError => PyExc.timeoutError
  | ReadExc.bleakError => PyExc.bleakError
  | ReadExc.otherError => PyExc.otherError

/-- Which exceptions the first `except (TimeoutError, BleakError)` clause of
`_async_update_data` catches. -/
def isLinkErr : PyExc → Bool
  | PyExc.timeoutError => true
  | PyExc.bleakError => true
  | _ => false

/-- Outcome of one awaited getter call on the external Device Link: it either
returns a value or raises an exception of some class. -/
inductive ReadOutcome (α : Type) where
  | ok (v : α)
  | raises (e : ReadExc)
  deriving DecidableEq

/-- Whether a read outcome is a successful return. -/
def ReadOutcome.isOk {α : Type} : ReadOutcome α → Bool
  | ReadOutcome.ok _ => true
  | ReadOutcome.raises _ => false

/-- Outcome of `mower.connect(device)` inside `_async_find_device`: an OK
result code, a non-OK result code, or a raised exception. -/
inductive ConnectOutcome where
  | ok
  | notOk
  | raises (e : ReadExc)
  deriving DecidableEq

/-- Environment for `_async_find_device`: whether the platform Bluetooth cache
resolves the address, whether the fallback `get_device` call does, and what
`mower.connect` would do. -/
structure FindEnv where
  cacheDevice : Bool
  fallbackDevice : Bool
  connectResult : ConnectOutcome
  deriving DecidableEq

/-- Environment for one poll: the device-resolution/connect behaviour plus the
outcome of each of the seven field reads and the statistics read, in the order
`_async_update_data` performs them. -/
structure PollEnv where
  find : FindEnv
  battery_level : ReadOutcome Nat
  is_charging : ReadOutcome Bool
  mower_mode : ReadOutcome Nat
  mower_state : ReadOutcome (Option MowerState)
  mower_activity : ReadOutcome (Option MowerActivity)
  mower_error : ReadOutcome Nat
  next_start_time : ReadOutcome (Option Nat)
  statistics : ReadOutcome (List (String × Nat))

/-- Coordinator-side state threaded through a poll: the published snapshot
(`self.data`, owned by the host `DataUpdateCoordinator`), the
`_last_successful_update` timestamp, the `_command_in_progress` flag, and the
Device Link connection state (`mower.is_connected()`). -/
structure CoordState where
  data : Option CoordData
  lastSuccessfulUpdate : Option Nat
  commandInProgress : Bool
  connected : Bool
  deriving DecidableEq

/-- Observable events of one poll, in order of occurrence. -/
inductive PollEvent where
  | notifiedListeners
  | disconnected
  | raisedUpdateFailed
  deriving DecidableEq

/-- Result of one poll as seen by the host framework: a data record returned
normally, or an `UpdateFailed` exception. -/
inductive PollResult where
  | success (d : CoordData)
  | updateFailed (msg : String) (cause : Option PyExc)

/-- `HusqvarnaCoordinator._async_find_device` (coordinator.py lines 64-81):
resolve the device via the platform cache or the fallback discovery call;
no device raises `UpdateFailed("Can't find device")`; a non-OK connect result
raises `UpdateFailed("Failed to connect")`; a `TimeoutError`/`BleakError` from
connect is re-raised as `UpdateFailed("Failed to connect") from ex`; any other
exception from connect propagates uncaught. -/
def findDeviceRun (env : FindEnv) : Except PyExc Unit :=
  if env.cacheDevice || env.fallbackDevice then
    match env.connectResult with
    | ConnectOutcome.ok => Except.ok ()
    | ConnectOutcome.notOk =>
      Except.error (PyExc.updateFailed "Failed to connect" Option.none)
    | ConnectOutcome.raises ReadExc.timeoutError =>
      Except.error (PyExc.updateFailed "Failed to connect" (Option.some PyExc.timeoutError))
    | ConnectOutcome.raises ReadExc.bleakError =>
      Except.error (PyExc.updateFailed "Failed to connect" (Option.some PyExc.bleakError))
    | ConnectOutcome.raises ReadExc.otherError =>
      Except.error PyExc.otherError
  else Except.error (PyExc.updateFailed "Can't find device" Option.none)

/-- Whether `_async_find_device` completes without raising. -/
def findOk (env : FindEnv) : Bool :=
  match findDeviceRun env with
  | Except.ok _ => true
  | Except.error _ => false

/-- The connect phase of `_async_update_data`: `_async_find_device` is invoked
only when `mower.is_connected()` is false. -/
def ensureStep (st : CoordState) (env : PollEnv) : Except PyExc Unit :=
  if st.connected then Except.ok () else findDeviceRun env.find

/-- Whether the connect phase of the poll succeeds. -/
def ensureOk (st : CoordState) (env : PollEnv) : Bool :=
  st.connected || findOk env.find

/-- One read: unwrap the outcome or raise. -/
def readStep {α : Type} : ReadOutcome α → Except PyExc α
  | ReadOutcome.ok v => Except.ok v
  | ReadOutcome.raises e => Except.error e.toExc

/-- The field-read sequence of `_async_update_data` (coordinator.py lines
110-120): seven field reads then the statistics read, each aborting the poll
by raising on failure; on success the `data` record holds every value. -/
def readAll (env : PollEnv) : Except PyExc CoordData :=
  match env.battery_level with
  | ReadOutcome.raises e => Except.error e.toExc
  | ReadOutcome.ok battery =>
    match env.is_charging with
    | ReadOutcome.raises e => Except.error e.toExc
    | ReadOutcome.ok charging =>
      match env.mower_mode with
      | ReadOutcome.raises e => Except.error e.toExc
      | ReadOutcome.ok m =>
        match env.mower_state with
        | ReadOutcome.raises e => Except.error e.toExc
        | ReadOutcome.ok s =>
          match env.mower_activity with
          | ReadOutcome.raises e => Except.error e.toExc
          | ReadOutcome.ok a =>
            match env.mower_error with
            | ReadOutcome.raises e => Except.error e.toExc
            | ReadOutcome.ok err =>
              match env.next_start_time with
              | ReadOutcome.raises e => Except.error e.toExc
              | ReadOutcome.ok nst =>
                match env.statistics with
                | ReadOutcome.raises e => Except.error e.toExc
                | ReadOutcome.ok stats =>
                  Except.ok
                    { battery_level := battery, is_charging := charging, mode := m,
                      state := s, activity := a, error := err,
                      next_start_time := nst, statistics := stats }

/-- Whether every field read and the statistics read of the poll succeeds. -/
def readsOk (env : PollEnv) : Bool :=
  env.battery_level.isOk && env.is_charging.isOk && env.mower_mode.isOk
    && env.mower_state.isOk && env.mower_activity.isOk && env.mower_error.isOk
    && env.next_start_time.isOk && env.statistics.isOk

/-- Whether the whole poll (connect phase plus every read) succeeds. -/
def pollAllOk (st : CoordState) (env : PollEnv) : Bool :=
  ensureOk st env && readsOk env

/-- The `try` body of `_async_update_data`: connect if needed, then read all
fields; on full success `_last_successful_update` is set (line 122). -/
def runPollTry (now : Nat) (st : CoordState) (env : PollEnv) :
    Except PyExc CoordData × CoordState :=
  match ensureStep st env with
  | Except.error e => (Except.error e, st)
  | Except.ok _ =>
    match readAll env with
    | Except.error e => (Except.error e, { st with connected := true })
    | Except.ok d =>
      (Except.ok d, { st with connected := true, lastSuccessfulUpdate := Option.some now })

/-- The `finally` block of `_async_update_data` (coordinator.py lines 134-137):
disconnect only when no command is in progress and the link is connected. -/
def finallyStep (st : CoordState) (evs : List PollEvent) : CoordState × List PollEvent :=
  if !st.commandInProgress && st.connected then
    ({ st with connected := false }, evs ++ [PollEvent.disconnected])
  else (st, evs)

/-- `HusqvarnaCoordinator._async_update_data` (coordinator.py lines 99-139)
together with the host framework's publication step: on a raised exception the
matching `except` clause notifies listeners and raises `UpdateFailed` (with
the original exception as cause), the `finally` block runs, and the exception
propagates; on success the `finally` block runs and the host
`DataUpdateCoordinator` stores the returned record as the new snapshot. -/
def runPoll (now : Nat) (st : CoordState) (env : PollEnv) :
    PollResult × CoordState × List PollEvent :=
  match runPollTry now st env with
  | (Except.ok d, st1) =>
    (PollResult.success d,
     { (finallyStep st1 []).1 with data := Option.some d },
     (finallyStep st1 []).2)
  | (Except.error e, st1) =>
    (PollResult.updateFailed
       (if isLinkErr e then "Error fetching data from device"
        else "Unexpected error fetching data")
       (Option.some e),
     (finallyStep st1 [PollEvent.notifiedListeners]).1,
     (finallyStep st1 [PollEvent.notifiedListeners]).2 ++ [PollEvent.raisedUpdateFailed])

/-- Connection state of the Device Link when the `finally` block runs: either
it was connected when the poll began, or the connect phase connected it. -/
def connectedAtFinally (st : CoordState) (env : PollEnv) : Bool :=
  st.connected || findOk env.find

lemma ensure_cases (st : CoordState) (env : PollEnv) :
    (ensureOk st env = true ∧ ensureStep st env = Except.ok ())
    ∨ (ensureOk st env = false ∧ st.connected = false
        ∧ ∃ e, ensureStep st env = Except.error e) := by
  cases hc : st.connected
  · cases hf : findDeviceRun env.find with
    | ok u =>
      cases u
      exact Or.inl ⟨by simp [ensureOk, hc, findOk, hf], by simp [ensureStep, hc, hf]⟩
    | error e =>
      exact Or.inr ⟨by simp [ensureOk, hc, findOk, hf], rfl,
        ⟨e, by simp [ensureStep, hc, hf]⟩⟩
  · exact Or.inl ⟨by simp [ensureOk, hc], by simp [ensureStep, hc]⟩

lemma readAll_cases (env : PollEnv) :
    (readsOk env = true ∧ ∃ d, readAll env = Except.ok d)
    ∨ (readsOk env = false ∧ ∃ e, readAll env = Except.error e) := by
  cases h1 : env.battery_level with
  | raises e =>
    exact Or.inr ⟨by simp [readsOk, h1, ReadOutcome.isOk],
      ⟨e.toExc, by simp [readAll, h1]⟩⟩
  | ok v1 =>
  cases h2 : env.is_charging with
  | raises e =>
    exact Or.inr ⟨by simp [readsOk, h2, ReadOutcome.isOk],
      ⟨e.toExc, by simp [readAll, h1, h2]⟩⟩
  | ok v2 =>
  cases h3 : env.mower_mode with
  | raises e =>
    exact Or.inr ⟨by simp [readsOk, h3, ReadOutcome.isOk],
      ⟨e.toExc, by simp [readAll, h1, h2, h3]⟩⟩
  | ok v3 =>
  cases h4 : env.mower_state with
  | raises e =>
    exact Or.inr ⟨by simp [readsOk, h4, ReadOutcome.isOk],
      ⟨e.toExc, by simp [readAll, h1, h2, h3, h4]⟩⟩
  | ok v4 =>
  cases h5 : env.mower_activity with
  | raises e =>
    exact Or.inr ⟨by simp [readsOk, h5, ReadOutcome.isOk],
      ⟨e.toExc, by simp [readAll, h1, h2, h3, h4, h5]⟩⟩
  | ok v5 =>
  cases h6 : env.mower_error with
  | raises e =>
    exact Or.inr ⟨by simp [readsOk, h6, ReadOutcome.isOk],
      ⟨e.toExc, by simp [readAll, h1, h2, h3, h4, h5, h6]⟩⟩
  | ok v6 =>
  cases h7 : env.next_start_time with
  | raises e =>
    exact Or.inr ⟨by simp [readsOk, h7, ReadOutcome.isOk],
      ⟨e.toExc, by simp [readAll, h1, h2, h3, h4, h5, h6, h7]⟩⟩
  | ok v7 =>
  cases h8 : env.statistics with
  | raises e =>
    exact Or.inr ⟨by simp [readsOk, h8, ReadOutcome.isOk],
      ⟨e.toExc, by simp [readAll, h1, h2, h3, h4, h5, h6, h7, h8]⟩⟩
  | ok v8 =>
    refine Or.inl ⟨by simp [readsOk, h1, h2, h3, h4, h5, h6, h7, h8, ReadOutcome.isOk], ?_⟩
    exact ⟨{ battery_level := v1, is_charging := v2, mode := v3, state := v4,
             activity := v5, error := v6, next_start_time := v7, statistics := v8 },
      by simp [readAll, h1, h2, h3, h4, h5, h6, h7, h8]⟩

lemma finallyStep_preserves (st : CoordState) (evs : List PollEvent) :
    (finallyStep st evs).1.data = st.data
    ∧ (finallyStep st evs).1.lastSuccessfulUpdate = st.lastSuccessfulUpdate
    ∧ (finallyStep st evs).1.commandInProgress = st.commandInProgress := by
  unfold finallyStep
  split <;> simp

lemma finallyStep_disconnect (st : CoordState) (evs : List PollEvent)
    (hevs : PollEvent.disconnected ∉ evs) :
    (PollEvent.disconnected ∈ (finallyStep st evs).2 ↔
      st.commandInProgress = false ∧ st.connected = true)
    ∧ (st.commandInProgress = true → (finallyStep st evs).1.connected = st.connected)
    ∧ (∃ l, (finallyStep st evs).2 = evs ++ l) := by
  unfold finallyStep
  rcases hcp : st.commandInProgress <;> rcases hcn : st.connected <;>
    simp [hcp, hcn, hevs]

lemma runPoll_shape (now : Nat) (st : CoordState) (env : PollEnv) :
    ∃ st1 : CoordState,
      st1.commandInProgress = st.commandInProgress
      ∧ st1.connected = connectedAtFinally st env
      ∧ ((∃ d, runPoll now st env =
            (PollResult.success d,
             { (finallyStep st1 []).1 with data := Option.some d },
             (finallyStep st1 []).2))
        ∨ (∃ e m, runPoll now st env =
            (PollResult.updateFailed m (Option.some e),
             (finallyStep st1 [PollEvent.notifiedListeners]).1,
             (finallyStep st1 [PollEvent.notifiedListeners]).2
               ++ [PollEvent.raisedUpdateFailed]))) := by
  rcases ensure_cases st env with ⟨he, heq⟩ | ⟨he, hconn, e, heq⟩
  · rcases readAll_cases env with ⟨hr, d, hrd⟩ | ⟨hr, e2, hre⟩
    · refine ⟨{ st with connected := true, lastSuccessfulUpdate := Option.some now },
        rfl, he.symm, Or.inl ⟨d, ?_⟩⟩
      simp [runPoll, runPollTry, heq, hrd]
    · refine ⟨{ st with connected := true }, rfl, he.symm,
        Or.inr ⟨e2,
          (if isLinkErr e2 then "Error fetching data from device"
           else "Unexpected error fetching data"), ?_⟩⟩
      simp [runPoll, runPollTry, heq, hre]
  · have hcf : connectedAtFinally st env = false := he
    refine ⟨st, rfl, by rw [hconn, hcf], Or.inr ⟨e,
      (if isLinkErr e then "Error fetching data from device"
       else "Unexpected error fetching data"), ?_⟩⟩
    simp [runPoll, runPollTry, heq]

/-- C2: a poll in which the connect step or any of the seven field reads or
the statistics read fails raises `UpdateFailed`, publishes no snapshot and
leaves both the previously published snapshot and `_last_successful_update`
unchanged; a snapshot and an updated `_last_successful_update` are produced
exactly when every step of the poll succeeds. -/
theorem C2_atomic_snapshot (now : Nat) (st : CoordState) (env : PollEnv) :
    (pollAllOk st env = false →
       (∃ msg c, (runPoll now st env).1 = PollResult.updateFailed msg c)
       ∧ (runPoll now st env).2.1.data = st.data
       ∧ (runPoll now st env).2.1.lastSuccessfulUpdate = st.lastSuccessfulUpdate)
    ∧ (pollAllOk st env = true →
       ∃ d, (runPoll now st env).1 = PollResult.success d
         ∧ (runPoll now st env).2.1.data = Option.some d
         ∧ (runPoll now st env).2.1.lastSuccessfulUpdate = Option.some now) := by
  rcases ensure_cases st env with ⟨he, heq⟩ | ⟨he, hconn, e, heq⟩
  · rcases readAll_cases env with ⟨hr, d, hrd⟩ | ⟨hr, e2, hre⟩
    · constructor
      · intro hf
        unfold pollAllOk at hf
        rw [he, hr] at hf
        cases hf
      · intro _
        have hp := finallyStep_preserves
          { st with connected := true, lastSuccessfulUpdate := Option.some now } []
        refine ⟨d, ?_, ?_, ?_⟩ <;>
          simp [runPoll, runPollTry, heq, hrd, hp.2.1]
    · constructor
      · intro _
        have hp := finallyStep_preserves
          { st with connected := true } [PollEvent.notifiedListeners]
        refine ⟨⟨(if isLinkErr e2 then "Error fetching data from device"
                  else "Unexpected error fetching data"), Option.some e2, ?_⟩, ?_, ?_⟩ <;>
          simp [runPoll, runPollTry, heq, hre, hp.1, hp.2.1]
      · intro hf
        unfold pollAllOk at hf
        rw [hr] at hf
        simp at hf
  · constructor
    · intro _
      have hp := finallyStep_preserves st [PollEvent.notifiedListeners]
      refine ⟨⟨(if isLinkErr e then "Error fetching data from device"
                else "Unexpected error fetching data"), Option.some e, ?_⟩, ?_, ?_⟩ <;>
        simp [runPoll, runPollTry, heq, hp.1, hp.2.1]
    · intro hf
      unfold pollAllOk at hf
      rw [he] at hf
      simp at hf

/-- C6: every execution of the poll ends with the `finally` block, which
disconnects the Device Link if and only if `_command_in_progress` is not set
and the link is connected at that point; when `_command_in_progress` is set
the connection is left open on every exit path. -/
theorem C6_guarded_disconnect (now : Nat) (st : CoordState) (env : PollEnv) :
    (PollEvent.disconnected ∈ (runPoll now st env).2.2 ↔
      st.commandInProgress = false ∧ connectedAtFinally st env = true)
    ∧ (st.commandInProgress = true →
        (runPoll now st env).2.1.connected = connectedAtFinally st env) := by
  obtain ⟨st1, hcp, hcn, hcase⟩ := runPoll_shape now st env
  rcases hcase with ⟨d, heq⟩ | ⟨e, m, heq⟩
  · have hfin := finallyStep_disconnect st1 [] (by simp)
    constructor
    · rw [heq]
      rw [← hcp, ← hcn]
      exact hfin.1
    · intro h
      rw [heq]
      have := hfin.2.1 (by rw [hcp]; exact h)
      simp only [Prod.snd, Prod.fst]
      rw [← hcn]
      exact this
  · have hfin := finallyStep_disconnect st1 [PollEvent.notifiedListeners] (by simp)
    constructor
    · rw [heq]
      rw [← hcp, ← hcn]
      simp only [Prod.snd, Prod.fst, List.mem_append, List.mem_singleton]
      rw [← hfin.1]
      simp
    · intro h
      rw [heq]
      have := hfin.2.1 (by rw [hcp]; exact h)
      simp only [Prod.snd, Prod.fst]
      rw [← hcn]
      exact this

/-- C9: every poll that fails (with a link/timeout error or any unexpected
exception) notifies the coordinator's listeners before the `UpdateFailed`
exception propagates, so entities re-evaluate availability on failed updates
too. -/
theorem C9_notify_before_raise (now : Nat) (st : CoordState) (env : PollEnv)
    (msg : String) (c : Option PyExc)
    (h : (runPoll now st env).1 = PollResult.updateFailed msg c) :
    ∃ l, (runPoll now st env).2.2 =
      PollEvent.notifiedListeners :: (l ++ [PollEvent.raisedUpdateFailed]) := by
  obtain ⟨st1, hcp, hcn, hcase⟩ := runPoll_shape now st env
  rcases hcase with ⟨d, heq⟩ | ⟨e, m, heq⟩
  · rw [heq] at h
    cases h
  · obtain ⟨l, hl⟩ := (finallyStep_disconnect st1 [PollEvent.notifiedListeners] (by simp)).2.2
    refine ⟨l, ?_⟩
    rw [heq]
    simp only [Prod.snd]
    rw [hl]
    simp

/-- C8: with the link not connected, the connect step distinguishes its two
failures: when neither the platform Bluetooth cache nor the fallback discovery
call resolves a device it raises `UpdateFailed("Can't find device")`, and when
a device resolves but `connect` returns a non-OK result or raises a
link/timeout error it raises the distinct `UpdateFailed("Failed to connect")`;
in both cases the poll terminates with an `UpdateFailed` carrying that failure
as its cause and the published snapshot is unchanged. -/
theorem C8_connect_failures (now : Nat) (st : CoordState) (env : PollEnv)
    (h : st.connected = false) :
    (env.find.cacheDevice = false → env.find.fallbackDevice = false →
       findDeviceRun env.find =
         Except.error (PyExc.updateFailed "Can't find device" Option.none)
       ∧ (runPoll now st env).1 =
           PollResult.updateFailed "Unexpected error fetching data"
             (Option.some (PyExc.updateFailed "Can't find device" Option.none))
       ∧ (runPoll now st env).2.1.data = st.data
       ∧ (runPoll now st env).2.1.lastSuccessfulUpdate = st.lastSuccessfulUpdate)
    ∧ ((env.find.cacheDevice || env.find.fallbackDevice) = true →
       (env.find.connectResult = ConnectOutcome.notOk ∨
        env.find.connectResult = ConnectOutcome.raises ReadExc.timeoutError ∨
        env.find.connectResult = ConnectOutcome.raises ReadExc.bleakError) →
       ∃ c, findDeviceRun env.find =
           Except.error (PyExc.updateFailed "Failed to connect" c)
         ∧ (runPoll now st env).1 =
             PollResult.updateFailed "Unexpected error fetching data"
               (Option.some (PyExc.updateFailed "Failed to connect" c))
         ∧ (runPoll now st env).2.1.data = st.data) := by
  constructor
  · intro hc hf
    have hfd : findDeviceRun env.find =
        Except.error (PyExc.updateFailed "Can't find device" Option.none) := by
      simp [findDeviceRun, hc, hf]
    have hp := finallyStep_preserves st [PollEvent.notifiedListeners]
    refine ⟨hfd, ?_, ?_, ?_⟩ <;>
      simp [runPoll, runPollTry, ensureStep, h, hfd, isLinkErr, hp.1, hp.2.1]
  · intro hdev hconn
    have hcases : ∃ c, findDeviceRun env.find =
        Except.error (PyExc.updateFailed "Failed to connect" c) := by
      rcases hconn with hc | hc | hc
      · exact ⟨Option.none, by simp [findDeviceRun, hdev, hc]⟩
      · exact ⟨Option.some PyExc.timeoutError, by simp [findDeviceRun, hdev, hc]⟩
      · exact ⟨Option.some PyExc.bleakError, by simp [findDeviceRun, hdev, hc]⟩
    obtain ⟨c, hfd⟩ := hcases
    have hp := finallyStep_preserves st [PollEvent.notifiedListeners]
    refine ⟨c, hfd, ?_, ?_⟩ <;>
      simp [runPoll, runPollTry, ensureStep, h, hfd, isLinkErr, hp.1]

/-- Coordinator state right after setup: no snapshot, no successful poll yet,
no command in flight, link not connected. -/
def stInit : CoordState :=
  { data := Option.none, lastSuccessfulUpdate := Option.none,
    commandInProgress := false, connected := false }

/-- Coordinator state while `execute_command_with_refresh` has a command in
flight. -/
def stCmd : CoordState := { stInit with commandInProgress := true }

/-- A poll environment in which everything succeeds. -/
def envGood : PollEnv :=
  { find := { cacheDevice := true, fallbackDevice := false,
              connectResult := ConnectOutcome.ok },
    battery_level := ReadOutcome.ok 55,
    is_charging := ReadOutcome.ok false,
    mower_mode := ReadOutcome.ok 0,
    mower_state := ReadOutcome.ok (Option.some MowerState.inOperation),
    mower_activity := ReadOutcome.ok (Option.some MowerActivity.mowing),
    mower_error := ReadOutcome.ok 0,
    next_start_time := ReadOutcome.ok Option.none,
    statistics := ReadOutcome.ok [] }

/-- A poll environment in which the mower-state read raises a `BleakError`
mid-poll. -/
def envBad : PollEnv :=
  { envGood with mower_state := ReadOutcome.raises ReadExc.bleakError }

/-- A poll environment in which neither the cache nor the fallback discovery
resolves a device. -/
def envNoDevice : PollEnv :=
  { envGood with find := { cacheDevice := false, fallbackDevice := false,
                           connectResult := ConnectOutcome.ok } }

/-- A poll environment in which the device resolves but `connect` returns a
non-OK result code. -/
def envConnNotOk : PollEnv :=
  { envGood with find := { cacheDevice := true, fallbackDevice := false,
                           connectResult := ConnectOutcome.notOk } }

/-- Witness for C2: concrete failing poll (mid-read `BleakError`) keeps the
snapshot and timestamp unchanged, and a concrete fully successful poll
publishes a snapshot and an updated timestamp. -/
theorem C2_atomic_snapshot_witness :
    ((∃ msg c, (runPoll 0 stInit envBad).1 = PollResult.updateFailed msg c)
      ∧ (runPoll 0 stInit envBad).2.1.data = stInit.data
      ∧ (runPoll 0 stInit envBad).2.1.lastSuccessfulUpdate = stInit.lastSuccessfulUpdate)
    ∧ (∃ d, (runPoll 0 stInit envGood).1 = PollResult.success d
        ∧ (runPoll 0 stInit envGood).2.1.data = Option.some d
        ∧ (runPoll 0 stInit envGood).2.1.lastSuccessfulUpdate = Option.some 0) :=
  ⟨(C2_atomic_snapshot 0 stInit envBad).1 rfl,
   (C2_atomic_snapshot 0 stInit envGood).2 rfl⟩

/-- Witness for C6: with a command in flight, a concrete poll leaves the
connection in the state the connect phase established. -/
theorem C6_guarded_disconnect_witness :
    (runPoll 0 stCmd envGood).2.1.connected = connectedAtFinally stCmd envGood :=
  (C6_guarded_disconnect 0 stCmd envGood).2 rfl

/-- Witness for C9: a concrete poll failing with a mid-read `BleakError`
notifies listeners first and raises `UpdateFailed` last. -/
theorem C9_notify_before_raise_witness :
    ∃ l, (runPoll 0 stInit envBad).2.2 =
      PollEvent.notifiedListeners :: (l ++ [PollEvent.raisedUpdateFailed]) :=
  C9_notify_before_raise 0 stInit envBad "Error fetching data from device"
    (Option.some PyExc.bleakError) rfl

/-- Witness for C8: at a concrete no-device environment the poll fails with
the device-not-found cause, and at a concrete non-OK-connect environment it
fails with the distinct connect failure. -/
theorem C8_connect_failures_witness :
    (findDeviceRun envNoDevice.find =
        Except.error (PyExc.updateFailed "Can't find device" Option.none)
      ∧ (runPoll 0 stInit envNoDevice).1 =
          PollResult.updateFailed "Unexpected error fetching data"
            (Option.some (PyExc.updateFailed "Can't find device" Option.none))
      ∧ (runPoll 0 stInit envNoDevice).2.1.data = stInit.data
      ∧ (runPoll 0 stInit envNoDevice).2.1.lastSuccessfulUpdate
          = stInit.lastSuccessfulUpdate)
    ∧ (∃ c, findDeviceRun envConnNotOk.find =
          Except.error (PyExc.updateFailed "Failed to connect" c)
        ∧ (runPoll 0 stInit envConnNotOk).1 =
            PollResult.updateFailed "Unexpected error fetching data"
              (Option.some (PyExc.updateFailed "Failed to connect" c))
        ∧ (runPoll 0 stInit envConnNotOk).2.1.data = stInit.data) :=
  ⟨(C8_connect_failures 0 stInit envNoDevice rfl).1 rfl rfl,
   (C8_connect_failures 0 stInit envConnNotOk rfl).2 rfl (Or.inl rfl)⟩

/-- Command verbs on the external Device Link. -/
inductive Verb where
  | resume
  | park
  | pause
  | override
  | parkIndefinitely
  | auto
  deriving DecidableEq, Fintype

/-- Observable events of an entity command method and of
`execute_command_with_refresh`. -/
inductive CmdEvent where
  | ensuredConnected
  | wrote (v : Verb)
  | slept (seconds : Nat)
  | disconnected
  | requestedRefresh
  | setCommandInFlight (b : Bool)
  deriving DecidableEq

/-- Whether an event is a command write to the Device Link. -/
def CmdEvent.isWrite : CmdEvent → Bool
  | CmdEvent.wrote _ => true
  | _ => false

/-- `AutomowerLawnMower.async_dock` (lawn_mower.py lines 167-184): call the
entity's own `_ensure_connected`, and if it fails return; otherwise write
`mower_park`, sleep 2 seconds, disconnect if still connected, then request a
coordinator refresh.  `ensureConn` is the `_ensure_connected` result and
`connAfter` is `mower.is_connected()` after the sleep. -/
def asyncDock (ensureConn : Bool) (connAfter : Bool) : List CmdEvent :=
  if !ensureConn then [CmdEvent.ensuredConnected]
  else
    [CmdEvent.ensuredConnected, CmdEvent.wrote Verb.park, CmdEvent.slept 2]
      ++ (if connAfter then [CmdEvent.disconnected] else [])
      ++ [CmdEvent.requestedRefresh]

/-- `AutomowerLawnMower.async_start_mowing` (lawn_mower.py lines 144-165):
after `_ensure_connected`, write `mower_resume`, additionally write
`mower_override` when the displayed activity is DOCKED, sleep 2 seconds,
disconnect if still connected, then request a refresh. -/
def asyncStartMowing (ensureConn : Bool) (attrActivity : Option LawnMowerActivity)
    (connAfter : Bool) : List CmdEvent :=
  if !ensureConn then [CmdEvent.ensuredConnected]
  else
    [CmdEvent.ensuredConnected, CmdEvent.wrote Verb.resume]
      ++ (if attrActivity = Option.some LawnMowerActivity.docked
          then [CmdEvent.wrote Verb.override] else [])
      ++ [CmdEvent.slept 2]
      ++ (if connAfter then [CmdEvent.disconnected] else [])
      ++ [CmdEvent.requestedRefresh]

/-- Failure-injection environment for `execute_command_with_refresh`: whether
the awaited `command_func()` raises and whether the triggered
`async_request_refresh()` raises. -/
structure ExecEnv where
  commandRaises : Bool
  refreshRaises : Bool

/-- The `try` body of `execute_command_with_refresh`: run the command, sleep 1
second, request a refresh; each event is paired with the value of
`_command_in_progress` at the moment it occurs. -/
def execBody (v : Verb) (env : ExecEnv) (flag : Bool) :
    Option PyExc × List (CmdEvent × Bool) :=
  if env.commandRaises then (Option.some PyExc.otherError, [(CmdEvent.wrote v, flag)])
  else if env.refreshRaises then
    (Option.some PyExc.otherError,
     [(CmdEvent.wrote v, flag), (CmdEvent.slept 1, flag),
      (CmdEvent.requestedRefresh, flag)])
  else
    (Option.none,
     [(CmdEvent.wrote v, flag), (CmdEvent.slept 1, flag),
      (CmdEvent.requestedRefresh, flag)])

/-- `HusqvarnaCoordinator.execute_command_with_refresh` (coordinator.py lines
83-97): set `_command_in_progress`, run the body, and clear the flag in a
`finally` block on both the return path and the raise path.  The result is
(propagated exception, final flag value, event trace). -/
def executeCommandWithRefresh (v : Verb) (env : ExecEnv) :
    Option PyExc × Bool × List (CmdEvent × Bool) :=
  match execBody v env true with
  | (res, evs) => (res, false, evs)

/-- C3 counterexample: the entity dock command requests a command-plus-refresh
cycle, yet its trace never goes through `execute_command_with_refresh` — in
particular `_command_in_progress` is never set on this path, contradicting the
claim that every entity command flows through `executeCommandWithRefresh` with
CommandInFlight set. -/
theorem C3_entity_command_counterexample :
    (asyncDock true true).contains CmdEvent.requestedRefresh = true
    ∧ (asyncDock true true).contains (CmdEvent.setCommandInFlight true) = false := by
  decide

/-- C3 (amended): entity commands do not flow through
`execute_command_with_refresh` and never set CommandInFlight; once
connectivity is ensured, the dock command writes to the Device Link first,
then waits the fixed 2-second settle delay, then disconnects the link if it
is still connected, then triggers the forced refresh, in that strict order
(and issues nothing when connecting fails); `execute_command_with_refresh`
itself does run write, then settle delay, then refresh, in order, but no
entity command invokes it. -/
theorem C3_entity_commands_direct :
    (∀ (c d : Bool),
      (asyncDock c d).contains (CmdEvent.setCommandInFlight true) = false
      ∧ (asyncDock c d).contains (CmdEvent.setCommandInFlight false) = false
      ∧ (if c then
          (asyncDock c d).indexOf (CmdEvent.wrote Verb.park)
              < (asyncDock c d).indexOf (CmdEvent.slept 2)
          ∧ (asyncDock c d).indexOf (CmdEvent.slept 2)
              < (asyncDock c d).indexOf CmdEvent.requestedRefresh
          ∧ (if d then
              (asyncDock c d).indexOf (CmdEvent.slept 2)
                  < (asyncDock c d).indexOf CmdEvent.disconnected
              ∧ (asyncDock c d).indexOf CmdEvent.disconnected
                  < (asyncDock c d).indexOf CmdEvent.requestedRefresh
            else (asyncDock c d).contains CmdEvent.disconnected = false)
        else (asyncDock c d).contains (CmdEvent.wrote Verb.park) = false
          ∧ (asyncDock c d).contains CmdEvent.requestedRefresh = false))
    ∧ (∀ (v : Verb) (cr rr : Bool),
        ((executeCommandWithRefresh v
            { commandRaises := cr, refreshRaises := rr }).2.2.map Prod.fst) =
          (if cr then [CmdEvent.wrote v]
           else [CmdEvent.wrote v, CmdEvent.slept 1, CmdEvent.requestedRefresh])) := by
  constructor <;> decide

/-- C5: for every command function and every failure injection (the write
raises, the refresh raises, or neither), `execute_command_with_refresh` runs
its whole body with `_command_in_progress` set, clears the flag by the time it
returns or propagates the exception, and propagates an exception exactly when
the write or the refresh raised one. -/
theorem C5_flag_always_cleared :
    ∀ (v : Verb) (cr rr : Bool),
      (executeCommandWithRefresh v { commandRaises := cr, refreshRaises := rr }).2.1 = false
      ∧ ((executeCommandWithRefresh v
            { commandRaises := cr, refreshRaises := rr }).2.2.all (fun p => p.2)) = true
      ∧ (executeCommandWithRefresh v
            { commandRaises := cr, refreshRaises := rr }).1.isSome = (cr || rr) := by
  decide

/-- C10: when the start-mowing command runs with connectivity established, the
writes it issues are exactly `mower_resume` followed by `mower_override` when
the displayed activity is DOCKED, and exactly `mower_resume` alone for every
other displayed activity. -/
theorem C10_override_only_when_docked :
    ∀ (attrActivity : Option LawnMowerActivity) (connAfter : Bool),
      (asyncStartMowing true attrActivity connAfter).filter CmdEvent.isWrite =
        (if attrActivity = Option.some LawnMowerActivity.docked
         then [CmdEvent.wrote Verb.resume, CmdEvent.wrote Verb.override]
         else [CmdEvent.wrote Verb.resume]) := by
  decide

/-- Staleness window of `HusqvarnaAutomowerBleEntity.available`:
`timedelta(minutes=12)`, expressed in seconds. -/
def stalenessWindow : Nat := 12 * 60

/-- `HusqvarnaAutomowerBleEntity.available` (entity.py lines 20-27): false when
no poll has ever succeeded, otherwise true exactly when the age of
`_last_successful_update` is strictly below the staleness window. -/
def entityAvailable (lastSuccessfulUpdate : Option Nat) (now : Nat) : Bool :=
  match lastSuccessfulUpdate with
  | Option.none => false
  | Option.some t => now - t < stalenessWindow

/-- `AutomowerLawnMower._handle_coordinator_update` (lawn_mower.py lines
136-142), run on every coordinator update: recompute `_attr_activity` via
`_get_activity` and set `_attr_available` to
`self._attr_activity is not None and self.available`. -/
def handleCoordinatorUpdate (data : Option CoordData)
    (lastSuccessfulUpdate : Option Nat) (now : Nat) :
    Option LawnMowerActivity × Bool :=
  (getActivity data,
   (getActivity data).isSome && entityAvailable lastSuccessfulUpdate now)

/-- C7: on every coordinator update the lawn-mower entity recomputes its
availability, and it is available if and only if a snapshot exists, the
derived activity is a concrete (non-absent) value, and the age of
`_last_successful_update` is strictly less than the 12-minute staleness
window; when `_last_successful_update` is unset, or its age is at or past the
window boundary, the entity is unavailable. -/
theorem C7_availability (data : Option CoordData) (last : Option Nat) (now : Nat) :
    ((handleCoordinatorUpdate data last now).2 = true ↔
      data.isSome = true ∧ (getActivity data).isSome = true
        ∧ ∃ t, last = Option.some t ∧ now - t < stalenessWindow)
    ∧ (last = Option.none → (handleCoordinatorUpdate data last now).2 = false)
    ∧ (∀ t, last = Option.some t → stalenessWindow ≤ now - t →
        (handleCoordinatorUpdate data last now).2 = false) := by
  refine ⟨?_, ?_, ?_⟩
  · cases data with
    | none => simp [handleCoordinatorUpdate, getActivity]
    | some d =>
      cases last with
      | none => simp [handleCoordinatorUpdate, entityAvailable]
      | some t => simp [handleCoordinatorUpdate, entityAvailable]
  · intro h
    subst h
    simp [handleCoordinatorUpdate, entityAvailable]
  · intro t h1 h2
    subst h1
    have h3 : ¬ (now - t < stalenessWindow) := Nat.not_lt.mpr h2
    simp [handleCoordinatorUpdate, entityAvailable, h3]

/-- The snapshot of the spec's section 8 scenario 6: battery 55, not charging,
state InOperation, activity Mowing. -/
def dataGood : CoordData :=
  { battery_level := 55, is_charging := false, mode := 0,
    state := Option.some MowerState.inOperation,
    activity := Option.some MowerActivity.mowing,
    error := 0, next_start_time := Option.none, statistics := [] }

/-- Witness for C7: with a fresh successful poll the entity is available;
with no successful poll ever, or exactly at the window boundary, it is not. -/
theorem C7_availability_witness :
    (handleCoordinatorUpdate (Option.some dataGood) (Option.some 0) 100).2 = true
    ∧ (handleCoordinatorUpdate (Option.some dataGood) Option.none 100).2 = false
    ∧ (handleCoordinatorUpdate (Option.some dataGood) (Option.some 0) 720).2 = false :=
  ⟨(C7_availability (Option.some dataGood) (Option.some 0) 100).1.mpr
      ⟨rfl, rfl, 0, rfl, by decide⟩,
   (C7_availability (Option.some dataGood) Option.none 100).2.1 rfl,
   (C7_availability (Option.some dataGood) (Option.some 0) 720).2.2 0 rfl (by decide)⟩

/-- Outcome of `mower.probe_gatts(device)` in the config flow: an identity
triple, a missing manufacturer/device-type (which the code turns into a
`ValueError`), or a raised exception. -/
inductive ProbeOutcome where
  | ok (manufacture : String) (deviceType : String) (model : String)
  | missingIdentity
  | raises (e : ReadExc)
  deriving DecidableEq

/-- Outcome of `mower.connect(device)` in the config flow: a truthy result, a
falsy result (which the code turns into a `ConnectionError`, the
incorrect-PIN case), or a raised exception. -/
inductive FlowConnect where
  | ok
  | failed
  | raises (e : ReadExc)
  deriving DecidableEq

/-- The submitted user input plus the behaviour of the external calls during
config-flow validation. -/
structure FlowEnv where
  address : String
  pin : Option Int
  deviceFound : Bool
  probe : ProbeOutcome
  connect : FlowConnect

/-- Result of the user step: re-render the form with an error key in
`errors["base"]`, or create the config entry. -/
inductive FlowResult where
  | showForm (errorKey : String)
  | createdEntry (title : String)
  deriving DecidableEq

/-- The PIN test of `async_step_user`: `self.pin is not None and (not
isinstance(self.pin, int) or self.pin < 0)`; the `isinstance` test cannot
fail in this typed model, so only negativity remains. -/
def pinInvalid : Option Int → Bool
  | Option.none => false
  | Option.some p => decide (p < 0)

/-- `HusqvarnaAutomowerBleConfigFlow.async_step_user` (config_flow.py lines
74-168) on a submitted input: empty address and negative PIN fail the local
checks; an unresolvable device fails with `device_not_found`; then the probe
and connect calls run under `try`, with `BleakError`/`TimeoutError` and
`ValueError` mapped to `cannot_connect`, `ConnectionError` (falsy connect,
the incorrect-PIN case) mapped to `invalid_connection`, any other exception
mapped to `exception`, and success creating the entry. -/
def asyncStepUser (env : FlowEnv) : FlowResult :=
  if env.address = "" then FlowResult.showForm "invalid_address"
  else if pinInvalid env.pin then FlowResult.showForm "invalid_pin"
  else if !env.deviceFound then FlowResult.showForm "device_not_found"
  else
    match env.probe with
    | ProbeOutcome.raises ReadExc.timeoutError => FlowResult.showForm "cannot_connect"
    | ProbeOutcome.raises ReadExc.bleakError => FlowResult.showForm "cannot_connect"
    | ProbeOutcome.raises ReadExc.otherError => FlowResult.showForm "exception"
    | ProbeOutcome.missingIdentity => FlowResult.showForm "cannot_connect"
    | ProbeOutcome.ok manufacture deviceType _ =>
      match env.connect with
      | FlowConnect.failed => FlowResult.showForm "invalid_connection"
      | FlowConnect.raises ReadExc.timeoutError => FlowResult.showForm "cannot_connect"
      | FlowConnect.raises ReadExc.bleakError => FlowResult.showForm "cannot_connect"
      | FlowConnect.raises ReadExc.otherError => FlowResult.showForm "exception"
      | FlowConnect.ok => FlowResult.createdEntry (manufacture ++ " " ++ deviceType)

/-- The error keys `async_step_user` can actually place in `errors["base"]`. -/
def formErrorKeys : List String :=
  ["invalid_address", "invalid_pin", "device_not_found", "cannot_connect",
   "invalid_connection", "exception"]

/-- Whether a flow result is either a created entry or a form rendered with
one of the keys of `formErrorKeys`. -/
def resultWellFormed : FlowResult → Bool
  | FlowResult.showForm k => formErrorKeys.contains k
  | FlowResult.createdEntry _ => true

/-- A config-flow environment in which validation reaches `connect` and
`connect` returns the falsy (incorrect-PIN) result. -/
def envInvalidPin : FlowEnv :=
  { address := "AA:BB:CC:DD:EE:FF", pin := Option.some 1234, deviceFound := true,
    probe := ProbeOutcome.ok "Husqvarna" "Automower 305" "305",
    connect := FlowConnect.failed }

/-- C4 counterexample: when connect reports the invalid-PIN result during
config-flow validation the form re-renders with error key
`invalid_connection`, not `invalid_auth`; `invalid_auth` is not among the
keys the flow can produce, and neither are `invalid_address_format` and
`invalid_pin_format` (the local checks use `invalid_address` and
`invalid_pin`). -/
theorem C4_error_keys_counterexample :
    asyncStepUser envInvalidPin = FlowResult.showForm "invalid_connection"
    ∧ decide ("invalid_connection" = "invalid_auth") = false
    ∧ formErrorKeys.contains "invalid_auth" = false
    ∧ formErrorKeys.contains "invalid_address_format" = false
    ∧ formErrorKeys.contains "invalid_pin_format" = false := by
  refine ⟨rfl, rfl, rfl, rfl, rfl⟩

/-- C4 (amended): during config-flow validation every failure is mapped to one
of the user-facing form error keys `invalid_address`, `invalid_pin`,
`device_not_found`, `cannot_connect`, `invalid_connection`, or generic
`exception` without crashing the flow; in particular, when connect reports
the invalid-PIN (falsy) result the form re-renders with error key
`invalid_connection`. -/
theorem C4_flow_error_keys (env : FlowEnv) :
    resultWellFormed (asyncStepUser env) = true
    ∧ (∀ manufacture deviceType mo,
        env.probe = ProbeOutcome.ok manufacture deviceType mo →
        env.connect = FlowConnect.failed →
        env.address ≠ "" → pinInvalid env.pin = false → env.deviceFound = true →
        asyncStepUser env = FlowResult.showForm "invalid_connection") := by
  constructor
  · obtain ⟨addr, pin, df, probe, conn⟩ := env
    by_cases h1 : addr = ""
    · simp [asyncStepUser, h1, resultWellFormed, formErrorKeys]
    · cases hpin : pinInvalid pin
      all_goals cases df
      all_goals rcases probe with ⟨man, dt, mo⟩ | _ | e
      all_goals try cases e
      all_goals rcases conn with _ | _ | e2
      all_goals try cases e2
      all_goals simp [asyncStepUser, h1, hpin, resultWellFormed, formErrorKeys]
  · intro man dt mo hp hc h1 h2 h3
    simp only [asyncStepUser, h1, h2, h3, hp, hc]
    simp

/-- Witness for C4 (amended): at the concrete incorrect-PIN environment the
flow renders a well-formed error form with key `invalid_connection`. -/
theorem C4_flow_error_keys_witness :
    resultWellFormed (asyncStepUser envInvalidPin) = true
    ∧ asyncStepUser envInvalidPin = FlowResult.showForm "invalid_connection" :=
  ⟨(C4_flow_error_keys envInvalidPin).1,
   (C4_flow_error_keys envInvalidPin).2 "Husqvarna" "Automower 305" "305" rfl rfl
     (by decide) rfl rfl⟩

end AutomowerBle
